import Mathlib

/-!
Verification of the shard-synchronization protocol implemented in
src/arangod/Cluster/SynchronizeShard.cpp.

The development shallowly embeds the control flow of the relevant
functions. Every external call (RPCs to the leader, the bulk syncer, the
tailing syncer, local count and recount operations) is represented by its
outcome, supplied through an environment record; the embedded functions
replay the source control flow over those outcomes and additionally record
a trace of the externally visible events (lock cancellations, leader-id
updates, recounts) in the order in which the source issues them.
-/

namespace SynchronizeShard

/-- Error codes (TRI_ERROR_*) that the control flow of
SynchronizeShard.cpp distinguishes. All remaining codes are collapsed
into the constructor `other`, indexed by a number. -/
inductive ErrorCode where
  | noError
  | internal
  | failed
  | shuttingDown
  | actionUnfinished
  | replicationShardSyncAttemptTimeoutExceeded
  | replicationWrongChecksum
  | dataSourceNotFound
  | other (n : Nat)
deriving DecidableEq, Repr

/-- Model of arangodb::Result: the control flow of the embedded code only
inspects the error number, so the message is dropped. -/
structure Result where
  code : ErrorCode
deriving DecidableEq, Repr

/-- Result.ok() is true exactly when the error number is TRI_ERROR_NO_ERROR. -/
def Result.ok (r : Result) : Bool := r.code == ErrorCode.noError

/-- Result.fail() is the negation of Result.ok(). -/
def Result.fail (r : Result) : Bool := !r.ok

/-- Result.is(c) compares the stored error number with c. -/
def Result.is (r : Result) (c : ErrorCode) : Bool := r.code == c

/-! ## catchupWithExclusiveLock (SynchronizeShard.cpp lines 1271 to 1471)

The hard-lock phase: acquire an exclusive lock on the leader, set the
leader id (with the following term appended when one was obtained), run
the finalize tailing step, register as a follower, and reconcile a
checksum mismatch. A scope guard armed right after the successful lock
acquisition cancels the lock on every exit path unless it was already
fired explicitly (the checksum path fires it early). -/

/-- Externally visible events of the hard-lock phase, in source order. -/
inductive HardEvent where
  /-- collection.followers().setTheLeader(leaderIdWithTerm), line 1330. -/
  | setFollowersLeader (s : String)
  /-- tailingSyncer.setLeaderId(leaderIdWithTerm), line 1334. -/
  | setTailingLeaderId (s : String)
  /-- tailingSyncer.syncCollectionFinalize, line 1339. -/
  | finalizeTailing
  /-- addShardFollower PUT to the leader, line 1356. -/
  | addFollower
  /-- cancelReadLockOnLeader for the exclusive lock (the scope guard of
  line 1299, fired either explicitly on line 1372 or on scope exit). -/
  | cancelHardLock
  /-- collectionCount on the follower, line 1385. -/
  | localCount
  /-- collectionReCount on the follower, line 1393. -/
  | localRecount
  /-- PUT recalculateCount on the leader, line 1424. -/
  | leaderRecount
deriving DecidableEq, Repr

/-- Outcomes of the external calls made by catchupWithExclusiveLock.
Calls that throw in the source are caught at the call site and turned
into failing results there, so each call is represented by a Result
(counts carry the counted value in the success case). -/
structure ExclusiveEnv where
  /-- Combined outcome of startReadLockOnLeader (hard), line 1292. -/
  acquire : Result
  /-- Value of the field storing the following term id at entry of the
  phase, as stored by getReadLock during the hard-lock acquisition. -/
  followingTermId : Nat
  /-- Outcome of tailingSyncer.syncCollectionFinalize (exceptions are
  mapped to TRI_ERROR_INTERNAL on line 1342). -/
  finalizeRes : Result
  /-- Outcome of addShardFollower, line 1356. -/
  addFollowerRes : Result
  /-- Outcome of collectionCount on the follower, line 1385. -/
  countRes : Except Result Nat
  /-- Outcome of collectionReCount on the follower, line 1393. -/
  reCountRes : Except Result Nat
  /-- Combined outcome of the recalculateCount request to the leader,
  line 1429. -/
  leaderRecountRes : Result
deriving Repr

/-- Leader identifier with the following term appended when the term is
non-zero (lines 1323 to 1327): itoa renders the term in decimal. -/
def leaderIdWithTerm (leader : String) (followingTermId : Nat) : String :=
  if followingTermId ≠ 0 then leader ++ "_" ++ Nat.repr followingTermId
  else leader

/-- Embedding of SynchronizeShard::catchupWithExclusiveLock
(lines 1271 to 1471): returns the Result of the phase together with the
trace of external events in source order. The scope guard of line 1299 is
replayed by appending a cancelHardLock event at each return that leaves
the guard armed, and at the explicit readLockGuard.fire() of line 1372 on
the checksum path. -/
def catchupWithExclusiveLock (leader : String) (env : ExclusiveEnv) :
    Result × List HardEvent :=
  if env.acquire.fail then (env.acquire, [])
  else
    let lid := leaderIdWithTerm leader env.followingTermId
    let pre := [HardEvent.setFollowersLeader lid,
                HardEvent.setTailingLeaderId lid,
                HardEvent.finalizeTailing]
    if env.finalizeRes.fail then
      (env.finalizeRes, pre ++ [HardEvent.cancelHardLock])
    else
      let pre := pre ++ [HardEvent.addFollower]
      let res := env.addFollowerRes
      if res.is ErrorCode.replicationWrongChecksum then
        -- readLockGuard.fire(): give up the lock before recounting
        let pre := pre ++ [HardEvent.cancelHardLock]
        match env.countRes with
        | Except.error e => (e, pre ++ [HardEvent.localCount])
        | Except.ok oldCount =>
          let pre := pre ++ [HardEvent.localCount]
          match env.reCountRes with
          | Except.error e => (e, pre ++ [HardEvent.localRecount])
          | Except.ok newCount =>
            let pre := pre ++ [HardEvent.localRecount]
            if oldCount == newCount then
              let pre := pre ++ [HardEvent.leaderRecount]
              if env.leaderRecountRes.fail then (env.leaderRecountRes, pre)
              else (res, pre)
            else (res, pre)
      else if res.fail then (res, pre ++ [HardEvent.cancelHardLock])
      else (Result.mk ErrorCode.noError, pre ++ [HardEvent.cancelHardLock])

/-- Recognizer for the hard-lock cancellation event. -/
def isCancelHard : HardEvent → Bool
  | HardEvent.cancelHardLock => true
  | _ => false

/-- Environment in which the hard-lock phase runs into a checksum
mismatch, the local recount does not change the count, and the
recalculateCount request to the leader fails with an ordinary error. -/
def envLeaderRecountFails : ExclusiveEnv :=
  { acquire := Result.mk ErrorCode.noError
    followingTermId := 0
    finalizeRes := Result.mk ErrorCode.noError
    addFollowerRes := Result.mk ErrorCode.replicationWrongChecksum
    countRes := Except.ok 90
    reCountRes := Except.ok 90
    leaderRecountRes := Result.mk (ErrorCode.other 42) }

/-- Fully successful environment for the hard-lock phase. -/
def envHardAllOk : ExclusiveEnv :=
  { acquire := Result.mk ErrorCode.noError
    followingTermId := 7
    finalizeRes := Result.mk ErrorCode.noError
    addFollowerRes := Result.mk ErrorCode.noError
    countRes := Except.ok 100
    reCountRes := Except.ok 100
    leaderRecountRes := Result.mk ErrorCode.noError }

/-- C1: in every synchronization attempt in which the hard-lock phase
acquires the exclusive lock on the leader, the trace of
catchupWithExclusiveLock contains exactly one cancellation of that lock,
on every exit path (finalize failure, add-follower failure, the checksum
reconciliation path with all its sub-cases, and success). -/
theorem hardLock_released_exactly_once (leader : String) (env : ExclusiveEnv)
    (h : env.acquire.ok = true) :
    ((catchupWithExclusiveLock leader env).2).countP isCancelHard = 1 := by
  have hfail : env.acquire.fail = false := by simp [Result.fail, h]
  unfold catchupWithExclusiveLock
  rw [hfail]
  simp only [Bool.false_eq_true, if_false]
  split
  · simp [isCancelHard]
  · split
    · rcases hc : env.countRes with e | oldCount
      · simp [hc, isCancelHard]
      · rcases hrc : env.reCountRes with e | newCount
        · simp [hc, hrc, isCancelHard]
        · by_cases hcmp : oldCount == newCount
          · by_cases hlr : env.leaderRecountRes.fail
            · simp [hc, hrc, hcmp, hlr, isCancelHard]
            · simp [hc, hrc, hcmp, hlr, isCancelHard]
          · simp [hc, hrc, hcmp, isCancelHard]
    · split
      · simp [isCancelHard]
      · simp [isCancelHard]

/-- Witness for C1: the exactly-once release evaluated on a concrete
successful environment. -/
theorem hardLock_released_exactly_once_witness :
    envHardAllOk.acquire.ok = true ∧
    ((catchupWithExclusiveLock "PRMR-1" envHardAllOk).2).countP isCancelHard
      = 1 :=
  ⟨by decide,
   hardLock_released_exactly_once "PRMR-1" envHardAllOk (by decide)⟩

/-- C3 counterexample: when the recalculateCount request to the leader
fails, catchupWithExclusiveLock reports that failure (here error code
other 42) instead of the original checksum-mismatch error, refuting the
claim that the attempt always still reports the checksum-mismatch
failure as its result. -/
theorem checksum_result_counterexample :
    envLeaderRecountFails.addFollowerRes.is ErrorCode.replicationWrongChecksum
        = true ∧
    (catchupWithExclusiveLock "PRMR-1" envLeaderRecountFails).1
        = Result.mk (ErrorCode.other 42) ∧
    (catchupWithExclusiveLock "PRMR-1" envLeaderRecountFails).1.is
        ErrorCode.replicationWrongChecksum = false := by
  decide

/-- C3 amended: when add-follower returns a checksum mismatch, the
exclusive lock is cancelled immediately (right after the add-follower
call and before the local count and recount), the local count is
recomputed by a forced recount, and exactly when the recount did not
change the count a recount on the leader is additionally requested; the
attempt reports the original checksum-mismatch failure unless the
leader-recount request itself fails, in which case that failure is
reported instead. -/
theorem checksum_reconciliation (leader : String) (env : ExclusiveEnv)
    (hacq : env.acquire.ok = true) (hfin : env.finalizeRes.ok = true)
    (hmm : env.addFollowerRes.is ErrorCode.replicationWrongChecksum = true)
    (oldCount newCount : Nat)
    (hc : env.countRes = Except.ok oldCount)
    (hrc : env.reCountRes = Except.ok newCount) :
    (catchupWithExclusiveLock leader env).2 =
      [HardEvent.setFollowersLeader (leaderIdWithTerm leader env.followingTermId),
       HardEvent.setTailingLeaderId (leaderIdWithTerm leader env.followingTermId),
       HardEvent.finalizeTailing, HardEvent.addFollower,
       HardEvent.cancelHardLock, HardEvent.localCount,
       HardEvent.localRecount] ++
      (if oldCount = newCount then [HardEvent.leaderRecount] else []) ∧
    (catchupWithExclusiveLock leader env).1 =
      (if oldCount = newCount ∧ env.leaderRecountRes.fail = true then
        env.leaderRecountRes
      else env.addFollowerRes) := by
  have hfail : env.acquire.fail = false := by simp [Result.fail, hacq]
  have hffail : env.finalizeRes.fail = false := by simp [Result.fail, hfin]
  unfold catchupWithExclusiveLock
  by_cases hcmp : oldCount = newCount
  · by_cases hlr : env.leaderRecountRes.fail = true
    · simp [hfail, hffail, hmm, hc, hrc, hcmp, hlr]
    · simp [hfail, hffail, hmm, hc, hrc, hcmp, hlr]
  · simp [hfail, hffail, hmm, hc, hrc, hcmp]

/-- Witness for the amended C3 on a concrete environment: the recount is
unchanged and the leader recount fails, so that failure is reported. -/
theorem checksum_reconciliation_witness :
    envLeaderRecountFails.acquire.ok = true ∧
    envLeaderRecountFails.finalizeRes.ok = true ∧
    envLeaderRecountFails.addFollowerRes.is
      ErrorCode.replicationWrongChecksum = true ∧
    envLeaderRecountFails.countRes = Except.ok 90 ∧
    envLeaderRecountFails.reCountRes = Except.ok 90 ∧
    ((catchupWithExclusiveLock "PRMR-1" envLeaderRecountFails).2 =
      [HardEvent.setFollowersLeader
        (leaderIdWithTerm "PRMR-1" envLeaderRecountFails.followingTermId),
       HardEvent.setTailingLeaderId
        (leaderIdWithTerm "PRMR-1" envLeaderRecountFails.followingTermId),
       HardEvent.finalizeTailing, HardEvent.addFollower,
       HardEvent.cancelHardLock, HardEvent.localCount,
       HardEvent.localRecount] ++
      (if (90 : Nat) = 90 then [HardEvent.leaderRecount] else []) ∧
    (catchupWithExclusiveLock "PRMR-1" envLeaderRecountFails).1 =
      (if (90 : Nat) = 90 ∧ envLeaderRecountFails.leaderRecountRes.fail = true
       then envLeaderRecountFails.leaderRecountRes
       else envLeaderRecountFails.addFollowerRes)) :=
  ⟨by decide, by decide, by decide, rfl, rfl,
   checksum_reconciliation "PRMR-1" envLeaderRecountFails (by decide)
     (by decide) (by decide) 90 90 rfl rfl⟩

/-! ## catchupWithReadLock (SynchronizeShard.cpp lines 1151 to 1269)

The soft-lock catch-up loop: while the previous catch-up timed out and
fewer than 18 tries were made, acquire a soft lock, run the tailing
catch-up with a 60 percent budget of the lock timeout, and cancel the
lock (explicitly on success, through the scope guard of line 1189 on the
error paths). Exhausting the 18 tries leaves the loop with a success
result. -/

/-- Externally visible lock events of one soft-lock iteration, indexed by
the iteration number. -/
inductive SoftEvent where
  /-- startReadLockOnLeader (soft) succeeded in iteration i, line 1179. -/
  | acquireSoft (i : Nat)
  /-- cancelReadLockOnLeader for the lock of iteration i (explicit call
  of line 1244 or the scope guard of line 1189). -/
  | cancelSoft (i : Nat)
deriving DecidableEq, Repr

/-- Outcomes of the external calls made by one iteration of the
soft-lock loop. -/
structure SoftIterEnv where
  /-- Value of isStopping at the loop head, line 1165. -/
  stopping : Bool
  /-- Combined outcome of startReadLockOnLeader (soft), line 1179. -/
  acquireRes : Result
  /-- Outcome of syncCollectionCatchup (exceptions are mapped to
  TRI_ERROR_INTERNAL on line 1230). -/
  catchupRes : Result
  /-- Tick reached by syncCollectionCatchup. -/
  tickReached : Nat
  /-- Timed-out flag produced by syncCollectionCatchup. -/
  timedOut : Bool
  /-- Outcome of the explicit cancelReadLockOnLeader, line 1244. -/
  cancelRes : Result
deriving Repr

/-- Embedding of the loop body of SynchronizeShard::catchupWithReadLock.
The fuel argument counts the remaining tries (the source bounds the loop
by tries incremented up to 18); i is the current iteration index and the
last argument the current tickReached value. Exhausted fuel reproduces
the loop exit with didTimeout still true, which returns success. -/
def catchupReadLoop (env : Nat → SoftIterEnv) :
    Nat → Nat → Nat → Except Result Nat × List SoftEvent
  | 0, _, tickReached => (Except.ok tickReached, [])
  | fuel + 1, i, _ =>
    let it := env i
    if it.stopping then
      (Except.error (Result.mk ErrorCode.shuttingDown), [])
    else if it.acquireRes.fail then (Except.error it.acquireRes, [])
    else if it.catchupRes.fail then
      (Except.error it.catchupRes,
       [SoftEvent.acquireSoft i, SoftEvent.cancelSoft i])
    else if it.cancelRes.fail then
      (Except.error (Result.mk ErrorCode.internal),
       [SoftEvent.acquireSoft i, SoftEvent.cancelSoft i])
    else if it.timedOut then
      let r := catchupReadLoop env fuel (i + 1) it.tickReached
      (r.1, SoftEvent.acquireSoft i :: SoftEvent.cancelSoft i :: r.2)
    else
      (Except.ok it.tickReached,
       [SoftEvent.acquireSoft i, SoftEvent.cancelSoft i])

/-- Embedding of SynchronizeShard::catchupWithReadLock: the loop starts
with tries = 0, tickReached = 0 and didTimeout = true, and admits at most
18 iterations. -/
def catchupWithReadLock (env : Nat → SoftIterEnv) :
    Except Result Nat × List SoftEvent :=
  catchupReadLoop env 18 0 0

/-- Recognizer for soft-lock acquisition events. -/
def isAcquireSoft : SoftEvent → Bool
  | SoftEvent.acquireSoft _ => true
  | _ => false

/-- An iteration whose external calls all succeed but whose catch-up step
times out. -/
def goodTimedOutIter (it : SoftIterEnv) : Prop :=
  it.stopping = false ∧ it.acquireRes.fail = false ∧
  it.catchupRes.fail = false ∧ it.cancelRes.fail = false ∧
  it.timedOut = true

/-- The soft-lock loop performs at most fuel iterations. -/
lemma catchupReadLoop_acquires_le (env : Nat → SoftIterEnv) :
    ∀ fuel i t,
      ((catchupReadLoop env fuel i t).2).countP isAcquireSoft ≤ fuel := by
  intro fuel
  induction fuel with
  | zero => intro i t; simp [catchupReadLoop]
  | succ fuel ih =>
    intro i t
    unfold catchupReadLoop
    dsimp only
    split
    · simp
    · split
      · simp
      · split
        · simp [isAcquireSoft]
        · split
          · simp [isAcquireSoft]
          · split
            · simp [List.countP_cons, isAcquireSoft]
              have := ih (i + 1) ((env i).tickReached)
              omega
            · simp [isAcquireSoft]

/-- Iterations with an index below the starting index do not occur in
the trace of the soft-lock loop. -/
lemma catchupReadLoop_acquire_not_mem (env : Nat → SoftIterEnv) :
    ∀ fuel i t j, j < i →
      SoftEvent.acquireSoft j ∉ (catchupReadLoop env fuel i t).2 := by
  intro fuel
  induction fuel with
  | zero => intro i t j hj; simp [catchupReadLoop]
  | succ fuel ih =>
    intro i t j hj
    unfold catchupReadLoop
    dsimp only
    split
    · simp
    · split
      · simp
      · split
        · simp; omega
        · split
          · simp; omega
          · split
            · simp only [List.mem_cons]
              push_neg
              refine ⟨by simp; omega, by simp, ?_⟩
              exact ih (i + 1) ((env i).tickReached) j (by omega)
            · simp; omega

/-- Every iteration of the soft-lock loop that acquires a lock cancels
it exactly as often, and the loop visits each iteration index at most
once. -/
lemma catchupReadLoop_cancel_eq_acquire (env : Nat → SoftIterEnv) :
    ∀ fuel i t j,
      ((catchupReadLoop env fuel i t).2).count (SoftEvent.cancelSoft j) =
        ((catchupReadLoop env fuel i t).2).count (SoftEvent.acquireSoft j) ∧
      ((catchupReadLoop env fuel i t).2).count (SoftEvent.acquireSoft j)
        ≤ 1 := by
  intro fuel
  induction fuel with
  | zero => intro i t j; simp [catchupReadLoop]
  | succ fuel ih =>
    intro i t j
    unfold catchupReadLoop
    dsimp only
    split
    · simp
    · split
      · simp
      · split
        · by_cases hij : i = j <;>
            simp [List.count_cons, beq_iff_eq, hij]
        · split
          · by_cases hij : i = j <;>
              simp [List.count_cons, beq_iff_eq, hij]
          · split
            · by_cases hij : i = j
              · subst hij
                have hnm := catchupReadLoop_acquire_not_mem env fuel (i + 1)
                  ((env i).tickReached) i (Nat.lt_succ_self i)
                have hz :
                    ((catchupReadLoop env fuel (i + 1)
                      ((env i).tickReached)).2).count
                      (SoftEvent.acquireSoft i) = 0 :=
                  List.count_eq_zero.mpr hnm
                have hrec := ih (i + 1) ((env i).tickReached) i
                have hzc :
                    ((catchupReadLoop env fuel (i + 1)
                      ((env i).tickReached)).2).count
                      (SoftEvent.cancelSoft i) = 0 := hz ▸ hrec.1
                simp [List.count_cons, hz, hzc]
              · have hrec := ih (i + 1) ((env i).tickReached) j
                simp [List.count_cons, beq_iff_eq, hij, hrec.1, hrec.2]
            · by_cases hij : i = j <;>
                simp [List.count_cons, beq_iff_eq, hij]

/-- A run of the soft-lock loop in which every visited iteration
succeeds but times out uses all its fuel and still ends in a success
result. -/
lemma catchupReadLoop_exhaustion (env : Nat → SoftIterEnv) :
    ∀ fuel i t, (∀ j, i ≤ j → j < i + fuel → goodTimedOutIter (env j)) →
      ∃ u, (catchupReadLoop env fuel i t).1 = Except.ok u ∧
        ((catchupReadLoop env fuel i t).2).countP isAcquireSoft = fuel := by
  intro fuel
  induction fuel with
  | zero => intro i t _; exact ⟨t, by simp [catchupReadLoop]⟩
  | succ fuel ih =>
    intro i t hgood
    have hi := hgood i (Nat.le_refl i) (by omega)
    obtain ⟨h1, h2, h3, h4, h5⟩ := hi
    obtain ⟨u, hu, hcount⟩ := ih (i + 1) ((env i).tickReached)
      (fun j hj1 hj2 => hgood j (by omega) (by omega))
    refine ⟨u, ?_, ?_⟩
    · unfold catchupReadLoop
      simp [h1, h2, h3, h4, h5, hu]
    · unfold catchupReadLoop
      simp [h1, h2, h3, h4, h5, List.countP_cons, isAcquireSoft, hcount]

/-- C2: the soft-lock loop executes at most 18 iterations; for every
iteration index the trace contains exactly as many cancellations as
acquisitions of that iteration's lock, and at most one acquisition; and
when all 18 iterations succeed but time out, the loop is exhausted (all
18 locks acquired and cancelled) yet still returns a success, so the
attempt proceeds to the hard-lock phase. -/
theorem softLock_loop_bounded_and_paired (env : Nat → SoftIterEnv) :
    ((catchupWithReadLock env).2).countP isAcquireSoft ≤ 18 ∧
    (∀ i, ((catchupWithReadLock env).2).count (SoftEvent.cancelSoft i) =
        ((catchupWithReadLock env).2).count (SoftEvent.acquireSoft i) ∧
      ((catchupWithReadLock env).2).count (SoftEvent.acquireSoft i) ≤ 1) ∧
    ((∀ j, j < 18 → goodTimedOutIter (env j)) →
      ∃ u, (catchupWithReadLock env).1 = Except.ok u ∧
        ((catchupWithReadLock env).2).countP isAcquireSoft = 18) := by
  refine ⟨catchupReadLoop_acquires_le env 18 0 0,
          fun i => catchupReadLoop_cancel_eq_acquire env 18 0 0 i,
          fun h => catchupReadLoop_exhaustion env 18 0 0
            (fun j hj1 hj2 => h j (by omega))⟩

/-- Environment whose every iteration succeeds but times out. -/
def envSoftAlwaysTimeout : Nat → SoftIterEnv := fun i =>
  { stopping := false
    acquireRes := Result.mk ErrorCode.noError
    catchupRes := Result.mk ErrorCode.noError
    tickReached := 100 + i
    timedOut := true
    cancelRes := Result.mk ErrorCode.noError }

/-- Witness for C2: the loop bound, the pairing at iteration 0, and the
non-fatal exhaustion evaluated on a concrete always-timing-out
environment. -/
theorem softLock_loop_bounded_and_paired_witness :
    ((catchupWithReadLock envSoftAlwaysTimeout).2).countP isAcquireSoft
        ≤ 18 ∧
    ((catchupWithReadLock envSoftAlwaysTimeout).2).count
        (SoftEvent.cancelSoft 0) =
      ((catchupWithReadLock envSoftAlwaysTimeout).2).count
        (SoftEvent.acquireSoft 0) ∧
    (∀ j, j < 18 → goodTimedOutIter (envSoftAlwaysTimeout j)) ∧
    (∃ u, (catchupWithReadLock envSoftAlwaysTimeout).1 = Except.ok u ∧
      ((catchupWithReadLock envSoftAlwaysTimeout).2).countP isAcquireSoft
        = 18) := by
  have h := softLock_loop_bounded_and_paired envSoftAlwaysTimeout
  have hgood : ∀ j, j < 18 → goodTimedOutIter (envSoftAlwaysTimeout j) :=
    fun j _ => ⟨rfl, rfl, rfl, rfl, rfl⟩
  exact ⟨h.1, (h.2.1 0).1, hgood, h.2.2 hgood⟩

/-! ## Requeue check, setState side effects, readiness wait

These embed the count-difference reschedule test of
SynchronizeShard::first (lines 901 to 917), the terminal-state side
effects of SynchronizeShard::setState (lines 1473 to 1567), the
attempt-deadline re-tagging of the bulk-sync error (lines 1024 to 1032),
and the Current-based decision of the readiness wait (lines 807 to 846). -/

/-- Priority constant maintenance::SLOW_OP_PRIORITY. Its numeric value is
declared outside the excerpt; SynchronizeShard.cpp only compares the
running priority against it, so the value is fixed arbitrarily here. -/
def SLOW_OP_PRIORITY : Nat := 1

/-- Embedding of the document-count reschedule test of
SynchronizeShard::first (lines 901 to 905): true exactly when the job is
not already running at slow-operation priority and the two counts differ
in either direction by more than 10000. -/
def needsSlowReschedule (priority docCount docCountOnLeader : Nat) : Bool :=
  priority != SLOW_OP_PRIORITY && docCount != docCountOnLeader &&
    ((decide (docCount < docCountOnLeader) &&
        decide (docCountOnLeader - docCount > 10000)) ||
     (decide (docCount > docCountOnLeader) &&
        decide (docCount - docCountOnLeader > 10000)))

/-- Outcome of the count-difference check (lines 901 to 917): when the
test fires, requeueMe(SLOW_OP_PRIORITY) is called (the Bool) and the
recorded result is TRI_ERROR_ACTION_UNFINISHED; otherwise the attempt
continues with no recorded result. -/
def countDiffCheck (priority docCount docCountOnLeader : Nat) :
    Option Result × Bool :=
  if needsSlowReschedule priority docCount docCountOnLeader then
    (some (Result.mk ErrorCode.actionUnfinished), true)
  else (none, false)

/-- Terminal states of the maintenance action relevant to setState. -/
inductive ActionState where
  | complete
  | failed
deriving DecidableEq, Repr

/-- Effect of a terminal transition on the per-(database, shard)
replication-error counter. -/
inductive CounterAction where
  | reset
  | increment
  | keep
deriving DecidableEq, Repr

/-- Side effects of SynchronizeShard::setState on a transition into a
terminal state. -/
structure SetStateEffects where
  /-- Effect on the replication-error counter: removeReplicationError on
  line 1498 or storeReplicationError on line 1510. -/
  failureCounter : CounterAction
  /-- Whether countTimedOutSyncAttempt is called, line 1514. -/
  timedOutCounted : Bool
  /-- Whether the shard version is bumped: the wait loop of lines 1522
  to 1563 followed by incShardVersion on line 1564. -/
  versionBumped : Bool
  /-- Whether the shard scheduling lock is released by the scope guard
  of line 1482. -/
  shardUnlocked : Bool
deriving DecidableEq, Repr

/-- Embedding of SynchronizeShard::setState (lines 1473 to 1567) for a
transition into a terminal state, parameterized by the result the
attempt recorded. -/
def setStateEffects (state : ActionState) (res : Result) : SetStateEffects :=
  let haveRequeued := res.is ErrorCode.actionUnfinished
  let isTimeoutExceeded :=
    res.is ErrorCode.replicationShardSyncAttemptTimeoutExceeded
  { failureCounter :=
      match state with
      | ActionState.complete => CounterAction.reset
      | ActionState.failed =>
        if !haveRequeued && !isTimeoutExceeded then CounterAction.increment
        else CounterAction.keep
    timedOutCounted :=
      match state with
      | ActionState.complete => false
      | ActionState.failed => isTimeoutExceeded
    versionBumped := true
    shardUnlocked := !haveRequeued }

/-- Modelled from the spec: the maintenance framework that maps a
finished attempt to a terminal state (ActionBase and the maintenance
worker are declared but not contained in the excerpt). Sections 4.1 and
4.5 of the specification fix the state machine RUNNING to COMPLETE or
FAILED, so an attempt whose recorded result is a failure transitions to
FAILED and a successful one to COMPLETE. -/
def dispatchTerminalState (res : Result) : ActionState :=
  if res.ok then ActionState.complete else ActionState.failed

/-- Embedding of the attempt-deadline re-tagging after a failed bulk
synchronization in SynchronizeShard::first (lines 1024 to 1032): when
the bulk-sync result is a failure, the deadline was configured and has
elapsed, the error is replaced by the attempt-timeout error. -/
def retagBulkSyncError (syncRes : Result)
    (deadlineSet deadlineElapsed : Bool) : Result :=
  if syncRes.ok then syncRes
  else if deadlineSet && deadlineElapsed then
    Result.mk ErrorCode.replicationShardSyncAttemptTimeoutExceeded
  else syncRes

/-- Decision taken in one iteration of the readiness-wait loop of
SynchronizeShard::first (lines 807 to 846) from the servers listed in
Current for the shard, after the planned-servers check passed. -/
inductive ReadinessStep where
  /-- No servers in Current yet: keep waiting, line 807. -/
  | keepWaiting
  /-- Start the synchronization work, lines 813 and 827. -/
  | proceed
  /-- Terminal: this server is already in Current and no forced resync
  was requested, lines 829 to 837. -/
  | alreadyDone
  /-- Terminal: the planned leader is not yet leading in Current,
  lines 838 to 845. -/
  | notYetLeading
deriving DecidableEq, Repr

/-- Embedding of the Current-based readiness decision (lines 807 to
846). -/
def readinessCheckCurrent (current : List String)
    (ourselves leader : String) (forcedResync : Bool) : ReadinessStep :=
  match current with
  | [] => ReadinessStep.keepWaiting
  | front :: _ =>
    if front == leader then
      if !current.contains ourselves then ReadinessStep.proceed
      else if forcedResync then ReadinessStep.proceed
      else ReadinessStep.alreadyDone
    else ReadinessStep.notYetLeading

/-- Result recorded by SynchronizeShard::first for the terminal
readiness decisions: both record TRI_ERROR_FAILED (lines 836 and 844). -/
def ReadinessStep.recordedResult : ReadinessStep → Option Result
  | ReadinessStep.alreadyDone => some (Result.mk ErrorCode.failed)
  | ReadinessStep.notYetLeading => some (Result.mk ErrorCode.failed)
  | _ => none

/-- C4 counterexample: a job at a non-slow priority whose counts differ
by 10001 requeues itself and records the unfinished result, and on the
terminal transition for that result the shard version is nevertheless
bumped, because setState runs the version wait and incShardVersion
unconditionally; this refutes the part of the claim that the rescheduled
result does not trigger the version-bump side effect. -/
theorem requeue_versionBump_counterexample :
    needsSlowReschedule 2 0 10001 = true ∧
    countDiffCheck 2 0 10001 =
      (some (Result.mk ErrorCode.actionUnfinished), true) ∧
    (setStateEffects
        (dispatchTerminalState (Result.mk ErrorCode.actionUnfinished))
        (Result.mk ErrorCode.actionUnfinished)).versionBumped = true := by
  decide

/-- C4 amended: a job whose local and leader document counts differ by
more than 10000 in either direction and that is not already at
slow-operation priority aborts before synchronizing, requeues itself at
slow-operation priority and records the unfinished result; the terminal
transition for that result does not increment the failure counter and
does not release the shard lock (the shard stays locked for the
rescheduled attempt), although the shard-version bump still runs. -/
theorem requeue_keeps_lock_and_counter (priority docCount docLeader : Nat)
    (hp : priority ≠ SLOW_OP_PRIORITY)
    (hd : max docCount docLeader - min docCount docLeader > 10000) :
    needsSlowReschedule priority docCount docLeader = true ∧
    countDiffCheck priority docCount docLeader =
      (some (Result.mk ErrorCode.actionUnfinished), true) ∧
    (setStateEffects
        (dispatchTerminalState (Result.mk ErrorCode.actionUnfinished))
        (Result.mk ErrorCode.actionUnfinished)).failureCounter =
      CounterAction.keep ∧
    (setStateEffects
        (dispatchTerminalState (Result.mk ErrorCode.actionUnfinished))
        (Result.mk ErrorCode.actionUnfinished)).shardUnlocked = false := by
  have h1 : needsSlowReschedule priority docCount docLeader = true := by
    unfold needsSlowReschedule
    simp only [bne_iff_ne, ne_eq, Bool.and_eq_true, Bool.or_eq_true,
      decide_eq_true_eq]
    omega
  refine ⟨h1, ?_, by decide, by decide⟩
  simp [countDiffCheck, h1]

/-- Witness for the amended C4 at a concrete priority and count pair. -/
theorem requeue_keeps_lock_and_counter_witness :
    (2 : Nat) ≠ SLOW_OP_PRIORITY ∧
    max 0 10001 - min 0 10001 > 10000 ∧
    (needsSlowReschedule 2 0 10001 = true ∧
     countDiffCheck 2 0 10001 =
       (some (Result.mk ErrorCode.actionUnfinished), true) ∧
     (setStateEffects
         (dispatchTerminalState (Result.mk ErrorCode.actionUnfinished))
         (Result.mk ErrorCode.actionUnfinished)).failureCounter =
       CounterAction.keep ∧
     (setStateEffects
         (dispatchTerminalState (Result.mk ErrorCode.actionUnfinished))
         (Result.mk ErrorCode.actionUnfinished)).shardUnlocked = false) :=
  ⟨by decide, by decide,
   requeue_keeps_lock_and_counter 2 0 10001 (by decide) (by decide)⟩

/-- C5: the failure counter is reset on a COMPLETE transition, is
incremented on a FAILED transition exactly when the recorded result is
neither the voluntary-requeue error nor the attempt-timeout error, and a
failed bulk synchronization whose attempt deadline has elapsed is
re-tagged as the attempt-timeout error, which the counter then
excludes. -/
theorem failure_counter_lifecycle (res syncRes : Result)
    (deadlineSet deadlineElapsed : Bool) :
    (setStateEffects ActionState.complete res).failureCounter =
      CounterAction.reset ∧
    ((setStateEffects ActionState.failed res).failureCounter =
        CounterAction.increment ↔
      (res.is ErrorCode.actionUnfinished = false ∧
       res.is ErrorCode.replicationShardSyncAttemptTimeoutExceeded
         = false)) ∧
    (syncRes.fail = true → deadlineSet = true → deadlineElapsed = true →
      (retagBulkSyncError syncRes deadlineSet deadlineElapsed).is
          ErrorCode.replicationShardSyncAttemptTimeoutExceeded = true ∧
      (setStateEffects ActionState.failed
          (retagBulkSyncError syncRes deadlineSet deadlineElapsed)
        ).failureCounter = CounterAction.keep) := by
  refine ⟨rfl, ?_, ?_⟩
  · unfold setStateEffects
    rcases h1 : res.is ErrorCode.actionUnfinished <;>
      rcases h2 :
          res.is ErrorCode.replicationShardSyncAttemptTimeoutExceeded <;>
        simp [h1, h2]
  · intro hf hs he
    have hok : syncRes.ok = false := by
      simpa [Result.fail] using hf
    constructor
    · simp [retagBulkSyncError, hok, hs, he, Result.is]
    · simp [retagBulkSyncError, hok, hs, he, setStateEffects, Result.is]

/-- Witness for C5 on a concrete ordinary network error with the
deadline elapsed. -/
theorem failure_counter_lifecycle_witness :
    (Result.mk (ErrorCode.other 7)).fail = true ∧
    ((setStateEffects ActionState.failed (Result.mk (ErrorCode.other 7))
        ).failureCounter = CounterAction.increment ↔
      ((Result.mk (ErrorCode.other 7)).is ErrorCode.actionUnfinished
          = false ∧
       (Result.mk (ErrorCode.other 7)).is
          ErrorCode.replicationShardSyncAttemptTimeoutExceeded = false)) ∧
    ((retagBulkSyncError (Result.mk (ErrorCode.other 7)) true true).is
        ErrorCode.replicationShardSyncAttemptTimeoutExceeded = true ∧
     (setStateEffects ActionState.failed
         (retagBulkSyncError (Result.mk (ErrorCode.other 7)) true true)
       ).failureCounter = CounterAction.keep) :=
  ⟨by decide,
   (failure_counter_lifecycle (Result.mk (ErrorCode.other 7))
     (Result.mk (ErrorCode.other 7)) true true).2.1,
   (failure_counter_lifecycle (Result.mk (ErrorCode.other 7))
     (Result.mk (ErrorCode.other 7)) true true).2.2
     (by decide) (by decide) (by decide)⟩

/-- C6 counterexample: when this server is already in Current behind the
matching leader and no forced resync is requested, the readiness wait
terminates as already done with result TRI_ERROR_FAILED, and the
terminal transition for that ordinary failure result does increment the
failure counter, refuting the part of the claim that the already-done
termination does not increment it. -/
theorem alreadyDone_counter_counterexample :
    readinessCheckCurrent ["PRMR-L", "PRMR-me"] "PRMR-me" "PRMR-L" false =
      ReadinessStep.alreadyDone ∧
    ReadinessStep.recordedResult ReadinessStep.alreadyDone =
      some (Result.mk ErrorCode.failed) ∧
    (setStateEffects (dispatchTerminalState (Result.mk ErrorCode.failed))
        (Result.mk ErrorCode.failed)).failureCounter =
      CounterAction.increment := by
  decide

/-- C6 amended: during the readiness wait, when this server already
appears in the Current set and the first Current entry equals the
leader, the attempt terminates as already done unless the forced-resync
flag is set, in which case it proceeds to synchronize anyway; the
already-done termination records the ordinary failure result
TRI_ERROR_FAILED, whose terminal transition increments the failure
counter. -/
theorem alreadyDone_unless_forced (current : List String)
    (ourselves leader : String) (forced : Bool)
    (hhead : current.head? = some leader)
    (hmem : current.contains ourselves = true) :
    (forced = false →
      readinessCheckCurrent current ourselves leader forced =
        ReadinessStep.alreadyDone ∧
      ReadinessStep.recordedResult ReadinessStep.alreadyDone =
        some (Result.mk ErrorCode.failed) ∧
      (setStateEffects (dispatchTerminalState (Result.mk ErrorCode.failed))
          (Result.mk ErrorCode.failed)).failureCounter =
        CounterAction.increment) ∧
    (forced = true →
      readinessCheckCurrent current ourselves leader forced =
        ReadinessStep.proceed) := by
  rcases current with _ | ⟨front, rest⟩
  · simp at hhead
  · have hfr : front = leader := by simpa using hhead
    subst hfr
    constructor
    · intro hfc
      subst hfc
      refine ⟨?_, by decide, by decide⟩
      simp only [readinessCheckCurrent, hmem]
      simp
    · intro hfc
      subst hfc
      simp only [readinessCheckCurrent, hmem]
      simp

/-- Witness for the amended C6 on concrete Current contents, in both
the plain and the forced-resync variant. -/
theorem alreadyDone_unless_forced_witness :
    (["PRMR-L", "PRMR-me"].head? = some "PRMR-L" ∧
     ["PRMR-L", "PRMR-me"].contains "PRMR-me" = true) ∧
    (readinessCheckCurrent ["PRMR-L", "PRMR-me"] "PRMR-me" "PRMR-L" false =
      ReadinessStep.alreadyDone ∧
     ReadinessStep.recordedResult ReadinessStep.alreadyDone =
       some (Result.mk ErrorCode.failed) ∧
     (setStateEffects (dispatchTerminalState (Result.mk ErrorCode.failed))
         (Result.mk ErrorCode.failed)).failureCounter =
       CounterAction.increment) ∧
    readinessCheckCurrent ["PRMR-L", "PRMR-me"] "PRMR-me" "PRMR-L" true =
      ReadinessStep.proceed :=
  ⟨⟨by decide, by decide⟩,
   (alreadyDone_unless_forced ["PRMR-L", "PRMR-me"] "PRMR-me" "PRMR-L"
      false (by decide) (by decide)).1 rfl,
   (alreadyDone_unless_forced ["PRMR-L", "PRMR-me"] "PRMR-me" "PRMR-L"
      true (by decide) (by decide)).2 rfl⟩

/-! ## getReadLock (SynchronizeShard.cpp lines 428 to 547)

The POST that acquires a soft or hard lock on the leader. On success of
a hard-lock POST the response body may carry a numeric followingTermId
and a numeric lastLogTick (the tailing upper bound); both are stored.
On failure, a could-not-connect transport error returns immediately,
while every other failure is ambiguous and triggers exactly one
best-effort DELETE for the possibly acquired lock before the original
failure is returned. -/

/-- Per-attempt state written by getReadLock: the constructor initializes
both fields to 0 (lines 128 and 129). -/
structure LockState where
  followingTermId : Nat
  tailingUpperBoundTick : Nat
deriving DecidableEq, Repr

/-- Numeric attributes of the response body of a successful lock POST:
a field is some n exactly when the corresponding attribute is present
and is a number with value n. -/
structure LockResponseBody where
  followingTermId : Option Nat
  lastLogTick : Option Nat
deriving DecidableEq, Repr

/-- Transport-level error of the lock POST (fuerte::Error), as far as
getReadLock distinguishes it. -/
inductive TransportError where
  | none
  | couldNotConnect
  | otherTransport
deriving DecidableEq, Repr

/-- Outcome of the lock POST: the combined result, the transport error,
and the response body when it is an object. -/
structure PostOutcome where
  result : Result
  transportError : TransportError
  body : Option LockResponseBody
deriving DecidableEq, Repr

/-- Externally visible event of getReadLock beyond the POST itself. -/
inductive GetLockEvent where
  /-- Best-effort DELETE of the possibly acquired lock, line 528. -/
  | cancelDelete
deriving DecidableEq, Repr

/-- Embedding of SynchronizeShard::getReadLock (lines 428 to 547):
returns the function result, the updated per-attempt state and the
events issued, given the POST outcome and the outcome of a best-effort
cancel (which the source only logs, lines 532 to 542). -/
def getReadLock (st : LockState) (soft : Bool) (post : PostOutcome)
    (cancelRes : Result) : Result × LockState × List GetLockEvent :=
  if post.result.ok then
    let st :=
      if soft then st
      else
        match post.body with
        | Option.none => st
        | Option.some b =>
          let st :=
            match b.followingTermId with
            | Option.some n => { st with followingTermId := n }
            | Option.none => st
          match b.lastLogTick with
          | Option.some n => { st with tailingUpperBoundTick := n }
          | Option.none => st
    (Result.mk ErrorCode.noError, st, [])
  else if post.transportError == TransportError.couldNotConnect then
    (Result.mk ErrorCode.internal, st, [])
  else
    (post.result, st, [GetLockEvent.cancelDelete])

/-- C10: when the lock POST fails with a could-not-connect transport
error, getReadLock returns a failure without issuing any cancel request;
for every other POST failure it issues exactly one best-effort DELETE
and returns the original POST failure, independent of the outcome of
that DELETE. -/
theorem getReadLock_failure_paths (st : LockState) (soft : Bool)
    (post : PostOutcome) (cancelRes cancelRes' : Result)
    (h : post.result.ok = false) :
    (post.transportError = TransportError.couldNotConnect →
      ((getReadLock st soft post cancelRes).1.fail = true ∧
       (getReadLock st soft post cancelRes).2.2 = [])) ∧
    (post.transportError ≠ TransportError.couldNotConnect →
      ((getReadLock st soft post cancelRes).2.2
          = [GetLockEvent.cancelDelete] ∧
       (getReadLock st soft post cancelRes).1 = post.result ∧
       getReadLock st soft post cancelRes =
         getReadLock st soft post cancelRes')) := by
  have h2 : ¬ post.result.code = ErrorCode.noError := by
    simpa [Result.ok] using h
  constructor
  · intro hc
    simp [getReadLock, h2, hc, Result.fail, Result.ok]
  · intro hc
    simp [getReadLock, h, h2, hc]

/-- Witness for C10 on both failure shapes: a could-not-connect failure
and a timeout-like ambiguous failure with two different cancel
outcomes. -/
theorem getReadLock_failure_paths_witness :
    ((Result.mk (ErrorCode.other 3)).ok = false ∧
     ((getReadLock (LockState.mk 0 0) true
         (PostOutcome.mk (Result.mk (ErrorCode.other 3))
           TransportError.couldNotConnect Option.none)
         (Result.mk ErrorCode.noError)).1.fail = true ∧
      (getReadLock (LockState.mk 0 0) true
         (PostOutcome.mk (Result.mk (ErrorCode.other 3))
           TransportError.couldNotConnect Option.none)
         (Result.mk ErrorCode.noError)).2.2 = [])) ∧
    ((getReadLock (LockState.mk 0 0) false
        (PostOutcome.mk (Result.mk (ErrorCode.other 4))
          TransportError.otherTransport Option.none)
        (Result.mk ErrorCode.noError)).2.2
        = [GetLockEvent.cancelDelete] ∧
     (getReadLock (LockState.mk 0 0) false
        (PostOutcome.mk (Result.mk (ErrorCode.other 4))
          TransportError.otherTransport Option.none)
        (Result.mk ErrorCode.noError)).1
        = Result.mk (ErrorCode.other 4) ∧
     getReadLock (LockState.mk 0 0) false
        (PostOutcome.mk (Result.mk (ErrorCode.other 4))
          TransportError.otherTransport Option.none)
        (Result.mk ErrorCode.noError) =
       getReadLock (LockState.mk 0 0) false
        (PostOutcome.mk (Result.mk (ErrorCode.other 4))
          TransportError.otherTransport Option.none)
        (Result.mk (ErrorCode.other 99))) :=
  ⟨⟨by decide,
    (getReadLock_failure_paths (LockState.mk 0 0) true
      (PostOutcome.mk (Result.mk (ErrorCode.other 3))
        TransportError.couldNotConnect Option.none)
      (Result.mk ErrorCode.noError) (Result.mk ErrorCode.noError)
      (by decide)).1 rfl⟩,
   (getReadLock_failure_paths (LockState.mk 0 0) false
      (PostOutcome.mk (Result.mk (ErrorCode.other 4))
        TransportError.otherTransport Option.none)
      (Result.mk ErrorCode.noError) (Result.mk (ErrorCode.other 99))
      (by decide)).2 (by decide)⟩

/-- Every run of the hard-lock phase that acquired the exclusive lock
starts its trace by pointing both the local follower pointer and the
tailing syncer at the leader id with the stored term applied. -/
lemma catchupWithExclusiveLock_trace_head (leader : String)
    (env : ExclusiveEnv) (hacq : env.acquire.ok = true) :
    ∃ rest, (catchupWithExclusiveLock leader env).2 =
      HardEvent.setFollowersLeader
        (leaderIdWithTerm leader env.followingTermId) ::
      HardEvent.setTailingLeaderId
        (leaderIdWithTerm leader env.followingTermId) :: rest := by
  have hfail : env.acquire.fail = false := by simp [Result.fail, hacq]
  unfold catchupWithExclusiveLock
  rw [hfail]
  simp only [Bool.false_eq_true, if_false]
  split
  · exact ⟨_, rfl⟩
  · split
    · split
      · exact ⟨_, rfl⟩
      · split
        · exact ⟨_, rfl⟩
        · split
          · split
            · exact ⟨_, rfl⟩
            · exact ⟨_, rfl⟩
          · exact ⟨_, rfl⟩
    · split
      · exact ⟨_, rfl⟩
      · exact ⟨_, rfl⟩

/-- C7: starting from the initial state (both fields 0), the term id
stored by a successful hard-lock POST is non-zero only when the response
body contained a numeric followingTermId with that value; and in the
hard-lock phase both the local follower pointer and the tailing syncer
receive the leader id with an underscore and the decimal term appended
when the stored term is non-zero, and the bare leader id when it is
zero. -/
theorem followingTermId_and_leader_suffix (post : PostOutcome)
    (cancelRes : Result) (leader : String) (env : ExclusiveEnv)
    (hpost : post.result.ok = true) (hacq : env.acquire.ok = true) :
    ((getReadLock (LockState.mk 0 0) false post cancelRes
        ).2.1.followingTermId ≠ 0 →
      ∃ b, post.body = Option.some b ∧
        b.followingTermId = Option.some
          ((getReadLock (LockState.mk 0 0) false post cancelRes
            ).2.1.followingTermId)) ∧
    (HardEvent.setFollowersLeader
        (leaderIdWithTerm leader env.followingTermId)
        ∈ (catchupWithExclusiveLock leader env).2 ∧
     HardEvent.setTailingLeaderId
        (leaderIdWithTerm leader env.followingTermId)
        ∈ (catchupWithExclusiveLock leader env).2) ∧
    (env.followingTermId ≠ 0 →
      leaderIdWithTerm leader env.followingTermId =
        leader ++ "_" ++ Nat.repr env.followingTermId) ∧
    (env.followingTermId = 0 →
      leaderIdWithTerm leader env.followingTermId = leader) := by
  refine ⟨?_, ?_, ?_, ?_⟩
  · intro hne
    rcases hb : post.body with _ | b
    · exfalso
      apply hne
      simp [getReadLock, hpost, hb]
    · rcases hterm : b.followingTermId with _ | n
      · exfalso
        apply hne
        rcases htick : b.lastLogTick with _ | m <;>
          simp [getReadLock, hpost, hb, hterm, htick]
      · refine ⟨b, rfl, ?_⟩
        rcases htick : b.lastLogTick with _ | m <;>
          simp [getReadLock, hpost, hb, hterm, htick]
  · obtain ⟨rest, hr⟩ := catchupWithExclusiveLock_trace_head leader env hacq
    rw [hr]
    exact ⟨List.mem_cons_self _ _,
      List.mem_cons_of_mem _ (List.mem_cons_self _ _)⟩
  · intro hne
    simp [leaderIdWithTerm, hne]
  · intro hz
    simp [leaderIdWithTerm, hz]

/-- Witness for C7: a hard-lock response carrying followingTermId 12345
and an exclusive-phase environment using that term. -/
theorem followingTermId_and_leader_suffix_witness :
    ((PostOutcome.mk (Result.mk ErrorCode.noError) TransportError.none
        (Option.some (LockResponseBody.mk (Option.some 12345)
          (Option.some 600)))).result.ok = true ∧
     envHardAllOk.acquire.ok = true) ∧
    ((getReadLock (LockState.mk 0 0) false
        (PostOutcome.mk (Result.mk ErrorCode.noError) TransportError.none
          (Option.some (LockResponseBody.mk (Option.some 12345)
            (Option.some 600))))
        (Result.mk ErrorCode.noError)).2.1.followingTermId ≠ 0 →
      ∃ b,
        (PostOutcome.mk (Result.mk ErrorCode.noError) TransportError.none
          (Option.some (LockResponseBody.mk (Option.some 12345)
            (Option.some 600)))).body = Option.some b ∧
        b.followingTermId = Option.some
          ((getReadLock (LockState.mk 0 0) false
            (PostOutcome.mk (Result.mk ErrorCode.noError)
              TransportError.none
              (Option.some (LockResponseBody.mk (Option.some 12345)
                (Option.some 600))))
            (Result.mk ErrorCode.noError)).2.1.followingTermId)) ∧
    (HardEvent.setFollowersLeader
        (leaderIdWithTerm "PRMR-1" envHardAllOk.followingTermId)
        ∈ (catchupWithExclusiveLock "PRMR-1" envHardAllOk).2 ∧
     HardEvent.setTailingLeaderId
        (leaderIdWithTerm "PRMR-1" envHardAllOk.followingTermId)
        ∈ (catchupWithExclusiveLock "PRMR-1" envHardAllOk).2) ∧
    (envHardAllOk.followingTermId ≠ 0 →
      leaderIdWithTerm "PRMR-1" envHardAllOk.followingTermId =
        "PRMR-1" ++ "_" ++ Nat.repr envHardAllOk.followingTermId) :=
  have h := followingTermId_and_leader_suffix
    (PostOutcome.mk (Result.mk ErrorCode.noError) TransportError.none
      (Option.some (LockResponseBody.mk (Option.some 12345)
        (Option.some 600))))
    (Result.mk ErrorCode.noError) "PRMR-1" envHardAllOk
    (by decide) (by decide)
  ⟨⟨by decide, by decide⟩, h.1, h.2.1, h.2.2.1⟩

/-! ## Bulk-synchronization result check (SynchronizeShard.cpp lines
1046 to 1059)

After a successful bulk synchronization, the processed-collections list
returned by the syncer is inspected: the attempt continues only when the
list is non-empty and its first entry carries the name of the target
shard; otherwise the attempt fails with the shard-gone-from-leader
error. -/

/-- Entry of the processed-collections list built by
replicationSynchronize (lines 669 to 681): a collection id and name. -/
structure ProcessedCollection where
  id : Nat
  name : String
deriving DecidableEq, Repr

/-- Embedding of the check of lines 1048 to 1049: true exactly when the
attempt must fail because the shard seems to be gone from the leader
(the list is empty or its first entry is not the target shard). -/
def shardGoneFromLeader (collections : List ProcessedCollection)
    (shard : String) : Bool :=
  match collections with
  | [] => true
  | c :: _ => c.name != shard

/-- C8 counterexample: a processed-collections list that contains the
target shard, but not as its first entry, still fails the check, so the
attempt does not continue even though the list includes the shard; this
refutes the only-if direction of the claimed equivalence with list
membership. -/
theorem shardGone_membership_counterexample :
    shardGoneFromLeader
      [ProcessedCollection.mk 1 "s2010", ProcessedCollection.mk 2 "s2021"]
      "s2021" = true ∧
    (List.map ProcessedCollection.name
      [ProcessedCollection.mk 1 "s2010", ProcessedCollection.mk 2 "s2021"]
      ).contains "s2021" = true := by
  decide

/-- C8 amended: after a successful bulk synchronization the attempt
continues past the bulk phase if and only if the returned
processed-collections list is non-empty and its first entry is the
target shard; otherwise the attempt ends as a hard failure reporting
that the shard has gone from the leader. -/
theorem shardGone_iff_first_entry (collections : List ProcessedCollection)
    (shard : String) :
    shardGoneFromLeader collections shard = false ↔
      (collections.head?.map ProcessedCollection.name = some shard) := by
  rcases collections with _ | ⟨c, rest⟩
  · simp [shardGoneFromLeader]
  · simp only [shardGoneFromLeader, List.head?_cons, bne]
    simp

/-! ## Failure backoff at attempt start (SynchronizeShard.cpp lines 716
to 752)

When the shard accumulated at least delayThreshold failures in a row,
the attempt sleeps for min(2 + 0.1 * n*(n+1)/2, 15) seconds before the
readiness wait, in rounds of at most 0.5 seconds, checking the shutdown
flag before every round. Real-valued quantities are modelled over the
rationals. -/

/-- Failure threshold from which the backoff applies, line 719. -/
def delayThreshold : Nat := 4

/-- Sleep granularity of the backoff loop, line 745. -/
def sleepPerRound : ℚ := 1 / 2

/-- Backoff duration computed on lines 726 to 729: the triangular number
is computed in integer arithmetic before the multiplication by 0.1, and
the result is capped at 15 seconds. -/
def backoffSleepTime (failuresInRow : Nat) : ℚ :=
  min (2 + (1 / 10 : ℚ) * (failuresInRow * (failuresInRow + 1) / 2 : Nat))
    15

/-- Embedding of the backoff sleep loop of lines 739 to 751: while sleep
time remains, check the shutdown flag (returning none for the
shutting-down exit of line 741), sleep min(sleepTime, 0.5) and subtract
0.5. The returned list collects the individual sleep durations; k counts
the shutdown checks performed so far. -/
def backoffRounds (stopping : Nat → Bool) (k : Nat) (sleepTime : ℚ) :
    Option (List ℚ) :=
  if h : 0 < sleepTime then
    if stopping k then none
    else
      match backoffRounds stopping (k + 1) (sleepTime - sleepPerRound) with
      | Option.none => none
      | Option.some l => some (min sleepTime sleepPerRound :: l)
  else some []
termination_by (Int.ceil (2 * sleepTime)).toNat
decreasing_by
  have h2 : (0 : ℚ) < 2 * sleepTime := by linarith
  have hc : 0 < Int.ceil (2 * sleepTime) := Int.ceil_pos.mpr h2
  have he : 2 * (sleepTime - sleepPerRound) = 2 * sleepTime - 1 := by
    unfold sleepPerRound; ring
  rw [he, Int.ceil_sub_one]
  omega

/-- Embedding of the backoff entry check of line 721: the sleep loop
only runs from delayThreshold failures in a row on. -/
def firstBackoff (stopping : Nat → Bool) (failuresInRow : Nat) :
    Option (List ℚ) :=
  if delayThreshold ≤ failuresInRow then
    backoffRounds stopping 0 (backoffSleepTime failuresInRow)
  else some []

/-- The computed backoff duration is positive. -/
lemma backoffSleepTime_pos (n : Nat) : 0 < backoffSleepTime n := by
  unfold backoffSleepTime
  have h : (0 : ℚ) ≤ ((n * (n + 1) / 2 : Nat) : ℚ) := Nat.cast_nonneg _
  exact lt_min (by linarith) (by norm_num)

/-- With the shutdown flag never set, the backoff loop returns the list
of its sleep rounds: they are each positive, at most half a second, and
sum to the requested time (or to zero when no time was requested). -/
lemma backoffRounds_no_stop (stopping : Nat → Bool)
    (hst : ∀ j, stopping j = false) :
    ∀ n : Nat, ∀ k, ∀ s : ℚ, (Int.ceil (2 * s)).toNat = n →
      ∃ l, backoffRounds stopping k s = some l ∧
        l.sum = max s 0 ∧ ∀ x ∈ l, 0 < x ∧ x ≤ sleepPerRound := by
  intro n
  induction n using Nat.strong_induction_on with
  | _ n ih =>
    intro k s hn
    by_cases h : 0 < s
    · have h2 : (0 : ℚ) < 2 * s := by linarith
      have hc : 0 < Int.ceil (2 * s) := Int.ceil_pos.mpr h2
      have he : 2 * (s - sleepPerRound) = 2 * s - 1 := by
        unfold sleepPerRound; ring
      have hm : (Int.ceil (2 * (s - sleepPerRound))).toNat < n := by
        rw [he, Int.ceil_sub_one]; omega
      obtain ⟨l, hl, hsum, hbound⟩ :=
        ih _ hm (k + 1) (s - sleepPerRound) rfl
      refine ⟨min s sleepPerRound :: l, ?_, ?_, ?_⟩
      · rw [backoffRounds.eq_def, dif_pos h, hst k]
        simp only [Bool.false_eq_true, if_false, hl]
      · have hs2 : (0 : ℚ) < sleepPerRound := by
          unfold sleepPerRound; norm_num
        rcases le_or_lt s sleepPerRound with hcase | hcase
        · have : max (s - sleepPerRound) 0 = 0 := by
            apply max_eq_right; linarith
          simp only [List.sum_cons, hsum, this]
          rw [min_eq_left hcase]
          have : max s 0 = s := max_eq_left (le_of_lt h)
          rw [this]; ring
        · have : max (s - sleepPerRound) 0 = s - sleepPerRound := by
            apply max_eq_left; linarith
          simp only [List.sum_cons, hsum, this]
          rw [min_eq_right (le_of_lt hcase)]
          have : max s 0 = s := max_eq_left (le_of_lt h)
          rw [this]; ring
      · intro x hx
        rcases List.mem_cons.mp hx with hx | hx
        · subst hx
          constructor
          · apply lt_min h
            unfold sleepPerRound; norm_num
          · exact min_le_right _ _
        · exact hbound x hx
    · refine ⟨[], ?_, ?_, by simp⟩
      · rw [backoffRounds.eq_def, dif_neg h]
      · push_neg at h
        simp [max_eq_right h]

/-- When the shutdown flag turns on at the check of round k while sleep
time remains, the backoff loop ends at that check with the
shutting-down exit. -/
lemma backoffRounds_stops (stopping : Nat → Bool) :
    ∀ k k0, ∀ s : ℚ, (∀ j, j < k → stopping (k0 + j) = false) →
      stopping (k0 + k) = true → (k : ℚ) * sleepPerRound < s →
      backoffRounds stopping k0 s = none := by
  intro k
  induction k with
  | zero =>
    intro k0 s _ hstop hs
    have h0 : 0 < s := by
      simpa [sleepPerRound] using hs
    rw [backoffRounds.eq_def, dif_pos h0]
    simp only [Nat.add_zero] at hstop
    rw [hstop]
    simp
  | succ k ihm =>
    intro k0 s hfalse hstop hs
    have hs2 : (0 : ℚ) < sleepPerRound := by
      unfold sleepPerRound; norm_num
    have h0 : 0 < s := by
      have : (0 : ℚ) ≤ (k + 1 : Nat) * sleepPerRound := by positivity
      calc (0 : ℚ) ≤ (k + 1 : Nat) * sleepPerRound := this
        _ < s := hs
    have hrec : backoffRounds stopping (k0 + 1) (s - sleepPerRound)
        = none := by
      apply ihm (k0 + 1)
      · intro j hj
        have := hfalse (j + 1) (by omega)
        simpa [Nat.add_assoc, Nat.add_comm 1 j] using this
      · have : k0 + 1 + k = k0 + (k + 1) := by omega
        rw [this]; exact hstop
      · push_cast at hs ⊢
        linarith
    have hf0 : stopping k0 = false := by
      simpa using hfalse 0 (Nat.succ_pos k)
    rw [backoffRounds.eq_def, dif_pos h0, hf0]
    simp only [Bool.false_eq_true, if_false, hrec]

/-- C9: below the four-failure threshold no backoff sleep occurs; from
the threshold on, with no shutdown requested, the individual sleeps are
each positive and at most half a second and sum to
min(15, 2 + 0.1 * n*(n+1)/2) seconds; and the shutdown flag is checked
before every sleep round, so a shutdown arriving at any check with
sleep time remaining makes the attempt return immediately. -/
theorem backoff_schedule (failuresInRow : Nat) (stopping : Nat → Bool) :
    (failuresInRow < delayThreshold →
      firstBackoff stopping failuresInRow = some []) ∧
    ((∀ j, stopping j = false) → delayThreshold ≤ failuresInRow →
      ∃ l, firstBackoff stopping failuresInRow = some l ∧
        l.sum = min 15
          (2 + (1 / 10 : ℚ) * ((failuresInRow : ℚ) *
            ((failuresInRow : ℚ) + 1) / 2)) ∧
        ∀ x ∈ l, 0 < x ∧ x ≤ 1 / 2) ∧
    (∀ k, delayThreshold ≤ failuresInRow →
      (∀ j, j < k → stopping j = false) → stopping k = true →
      (k : ℚ) * (1 / 2) < backoffSleepTime failuresInRow →
      firstBackoff stopping failuresInRow = none) := by
  refine ⟨?_, ?_, ?_⟩
  · intro hlt
    unfold firstBackoff
    rw [if_neg (by omega)]
  · intro hst hge
    obtain ⟨l, hl, hsum, hbound⟩ := backoffRounds_no_stop stopping hst
      ((Int.ceil (2 * backoffSleepTime failuresInRow)).toNat) 0
      (backoffSleepTime failuresInRow) rfl
    refine ⟨l, ?_, ?_, ?_⟩
    · unfold firstBackoff
      rw [if_pos hge]
      exact hl
    · rw [hsum, max_eq_left (le_of_lt (backoffSleepTime_pos _))]
      unfold backoffSleepTime
      rw [min_comm]
      congr 1
      have hdvd : 2 ∣ failuresInRow * (failuresInRow + 1) :=
        (Nat.even_mul_succ_self failuresInRow).two_dvd
      rw [Nat.cast_div hdvd (by norm_num)]
      push_cast
      ring
    · intro x hx
      have := hbound x hx
      simpa [sleepPerRound] using this
  · intro k hge hfalse hstop hrem
    unfold firstBackoff
    rw [if_pos hge]
    apply backoffRounds_stops stopping k 0 (backoffSleepTime failuresInRow)
    · intro j hj
      simpa using hfalse j hj
    · simpa using hstop
    · simpa [sleepPerRound] using hrem

/-- Witness for C9: for three failures in a row nothing is slept, for
ten failures the rounds sum to 7.5 seconds, and a shutdown arriving at
the very first check ends the backoff immediately. -/
theorem backoff_schedule_witness :
    ((3 : Nat) < delayThreshold ∧
     firstBackoff (fun _ => false) 3 = some []) ∧
    (∃ l, firstBackoff (fun _ => false) 10 = some l ∧
      l.sum = min 15 (2 + (1 / 10 : ℚ) * ((10 : ℚ) * ((10 : ℚ) + 1) / 2)) ∧
      ∀ x ∈ l, 0 < x ∧ x ≤ 1 / 2) ∧
    firstBackoff (fun _ => true) 10 = none :=
  ⟨⟨by decide, (backoff_schedule 3 (fun _ => false)).1 (by decide)⟩,
   (backoff_schedule 10 (fun _ => false)).2.1 (fun _ => rfl) (by decide),
   (backoff_schedule 10 (fun _ => true)).2.2 0 (by decide)
     (fun j hj => absurd hj (by omega)) rfl
     (by unfold backoffSleepTime; norm_num)⟩

end SynchronizeShard
